import Mathlib

/-!
Verification of the city-directory / weather-resolver core of a small
weather-lookup widget.  The definitions below are a shallow embedding of
`src/app/services/city.service.ts` (the City Directory) and
`src/app/weather/weather.component.ts` (the Weather Resolver, live and
mock variants).  JavaScript numbers that arise here are finite decimals
(JSON cannot carry NaN), modelled as rationals; `NaN` values produced by
`Number(...)` on non-numeric strings are modelled as `none`.  String
primitives (`split`, `trim`, `toLowerCase`) are modelled by structural
recursion over the character list so that every definition evaluates
inside the kernel.
-/

namespace WeatherApp

deriving instance DecidableEq for Except

attribute [local semireducible] Rat.mul Rat.add Rat.sub Rat.inv

/-- Model of JS `String.prototype.toLowerCase` on the ASCII strings this
program handles (dataset keys, search text, condition labels). -/
def jsToLower (s : String) : String := ⟨s.data.map Char.toLower⟩

/-- Model of JS `String.prototype.trim` (ASCII whitespace). -/
def jsTrim (s : String) : String :=
  ⟨((s.data.dropWhile Char.isWhitespace).reverse.dropWhile Char.isWhitespace).reverse⟩

/-- Split a character list at every character satisfying `p`, keeping
empty pieces, as JS `String.prototype.split` does. -/
def splitByChars (p : Char → Bool) : List Char → List (List Char)
  | [] => [[]]
  | c :: cs =>
    let r := splitByChars p cs
    if p c then [] :: r
    else (c :: r.headD []) :: r.tail

/-- Model of JS `s.split(sep)` for a one-character separator. -/
def jsSplit (s : String) (sep : Char) : List String :=
  (splitByChars (fun c => c == sep) s.data).map (fun l => String.mk l)

/-- Digits of a non-empty all-digit character list, as a natural number;
`none` otherwise. -/
def decDigits (cs : List Char) : Option Nat :=
  match cs with
  | [] => none
  | _ => cs.foldlM (fun acc c => if c.isDigit then some (10 * acc + (c.toNat - 48)) else none) 0

/-- Model of JS `Number(string)` on decimal literals (optional sign,
integer part, optional fraction), the shape of the dataset's numeric
fields.  `Number("") = 0`; surrounding whitespace is ignored; any other
form yields NaN, modelled as `none`. -/
def jsNumberOfString (s : String) : Option ℚ :=
  let t := jsTrim s
  if t = "" then some 0 else
  let signBody : ℚ × List Char :=
    match t.data with
    | '-' :: rest => (-1, rest)
    | '+' :: rest => (1, rest)
    | l => (1, l)
  let body := signBody.2
  let intPart := body.takeWhile Char.isDigit
  let rest := body.dropWhile Char.isDigit
  match rest with
  | [] => (decDigits intPart).map (fun n => signBody.1 * n)
  | '.' :: frac =>
    if frac.any (fun c => !c.isDigit) then none
    else if intPart.isEmpty && frac.isEmpty then none
    else
      let i : ℚ := ((decDigits intPart).getD 0 : Nat)
      let fv : ℚ :=
        match decDigits frac with
        | none => 0
        | some f => (f : ℚ) / (10 ^ frac.length)
      some (signBody.1 * (i + fv))
  | _ => none

/-- Evaluation of `Number(x)` where `x` is a possibly-undefined string field:
`Number(undefined)` is NaN (`none`). -/
def jsNumber : Option String → Option ℚ
  | none => none
  | some s => jsNumberOfString s

/-- The `CityRecord` structure from `city.service.ts`.  `lat`, `lon`, `altitude` hold
`Number(field)`, so `none` models a NaN coordinate. -/
structure CityRecord where
  id : String
  country : String
  city : String
  lat : Option ℚ
  lon : Option ℚ
  altitude : Option ℚ
deriving Repr, DecidableEq

/-- The `{ lat, lon }` projection returned by `getCoordinates`. -/
structure Coordinates where
  lat : Option ℚ
  lon : Option ℚ
deriving Repr, DecidableEq

/-- State of the `CityService` singleton: the `cities` signal and the
`loaded` flag.  `fetchCount` instruments the embedding with the number of
`http.get("assets/data.csv")` requests issued, to state idempotence. -/
structure CityServiceState where
  cities : List CityRecord
  loaded : Bool
  fetchCount : Nat
deriving Repr, DecidableEq

/-- The initial service state: empty directory, not loaded. -/
def CityService.initState : CityServiceState :=
  { cities := [], loaded := false, fetchCount := 0 }

/-- One row of `CityService.parse`: the destructuring
`[id, country, city, lat, lon, altitude] = line.split(";")` followed by
the record literal.  When the row has fewer than three fields, `city` is
`undefined` and `city.toLowerCase()` throws a TypeError, modelled as
`Except.error`.  When it is present, `id` and `country` are present too
(the `getD` defaults are never used), and missing numeric fields become
`Number(undefined) = NaN`. -/
def parseLine (line : String) : Except Unit CityRecord :=
  let fields := jsSplit line ';'
  match fields[2]? with
  | none => Except.error ()
  | some city =>
    Except.ok
      { id := fields.getD 0 ""
        country := fields.getD 1 ""
        city := jsToLower city
        lat := jsNumber fields[3]?
        lon := jsNumber fields[4]?
        altitude := jsNumber fields[5]? }

/-- The rows `CityService.parse` maps over: split on newlines, drop the
header row, trim, drop empty lines (`filter(Boolean)`). -/
def bodyRows (data : String) : List String :=
  (((jsSplit data '\n').drop 1).map jsTrim).filter (fun l => l != "")

/-- The whole of `CityService.parse`.  A thrown TypeError inside the `.map` callback
aborts the whole traversal, hence `mapM` into `Except`. -/
def parse (data : String) : Except Unit (List CityRecord) :=
  (bodyRows data).mapM parseLine

/-- The operation `CityService.load()`, with the dataset text the HTTP response would
deliver passed explicitly and the subscribe callback run to completion.
If already loaded it returns at once.  Otherwise it fetches
(`fetchCount` grows by one) and runs the callback
`text => { this.cities.set(this.parse(text)); this.loaded = true; }`;
if `parse` throws, neither `cities` nor `loaded` is updated. -/
def CityService.load (text : String) (s : CityServiceState) : CityServiceState :=
  if s.loaded then s
  else
    match parse text with
    | Except.ok recs => { cities := recs, loaded := true, fetchCount := s.fetchCount + 1 }
    | Except.error _ => { s with fetchCount := s.fetchCount + 1 }

/-- The operation `CityService.getCoordinates(cityName)`: linear scan for the first
record whose stored `city` equals `cityName.toLowerCase()` (note: the
argument is lowercased but not trimmed), returning its `{lat, lon}` or
`null`. -/
def CityService.getCoordinates (s : CityServiceState) (cityName : String) : Option Coordinates :=
  match s.cities.find? (fun c => c.city == jsToLower cityName) with
  | some c => some { lat := c.lat, lon := c.lon }
  | none => none

/-- Modelled from the spec's words (for comparison with
`CityService.getCoordinates`): "normalizes `cityName` (lowercase, trim)
and performs an exact-match scan. Returns the first matching record's
coordinates, or an absent result if no record matches". -/
def specResolve (s : CityServiceState) (cityName : String) : Option Coordinates :=
  match s.cities.find? (fun c => c.city == jsTrim (jsToLower cityName)) with
  | some c => some { lat := c.lat, lon := c.lon }
  | none => none

/-- The spec's end-to-end dataset: a header row plus the row
`1;UK;london;51.5;-0.12;35`. -/
def demoDataset : String := "id;country;city;lat;lon;altitude\n1;UK;london;51.5;-0.12;35"

/-- The directory after loading `demoDataset` from the initial state. -/
def demoDir : CityServiceState := CityService.load demoDataset CityService.initState

/-- The `WeatherData` record from `weather.component.ts`. -/
structure WeatherData where
  city : String
  temperature : ℚ
  condition : String
  humidity : ℚ
  windSpeed : ℚ
  icon : String
deriving Repr, DecidableEq

/-- The component's signal state: `searchCity`, `isLoading`,
`currentWeather`. -/
structure WeatherState where
  searchCity : String
  isLoading : Bool
  currentWeather : Option WeatherData
deriving Repr, DecidableEq

/-- The table `weatherCodeMap`: provider weather code to condition label.  Keys are
the integer literals of the source; a JSON weather code is an arbitrary
number, hence the `ℚ` domain, with `none` for every unmapped code. -/
def weatherCodeMap (code : ℚ) : Option String :=
  if code = 0 then some "Clear"
  else if code = 1 then some "Mainly Clear"
  else if code = 2 then some "Partly Cloudy"
  else if code = 3 then some "Cloudy"
  else if code = 45 then some "Fog"
  else if code = 48 then some "Rime Fog"
  else if code = 51 then some "Light Drizzle"
  else if code = 53 then some "Drizzle"
  else if code = 61 then some "Rainy"
  else if code = 63 then some "Heavy Rain"
  else if code = 71 then some "Snow"
  else if code = 80 then some "Rain Showers"
  else none

/-- The table `weatherIconMap`: provider weather code to icon.  The string values
are reproduced byte-for-byte from the source file, whose emoji literals
are mojibake (UTF-8 bytes of the emoji decoded as a single-byte charset). -/
def weatherIconMap (code : ℚ) : Option String :=
  if code = 0 then some "â˜€ï¸"
  else if code = 1 then some "ğŸŒ¤ï¸"
  else if code = 2 then some "â›…"
  else if code = 3 then some "â˜ï¸"
  else if code = 45 then some "ğŸŒ«ï¸"
  else if code = 48 then some "ğŸŒ«ï¸"
  else if code = 51 then some "ğŸŒ¦ï¸"
  else if code = 61 then some "ğŸŒ§ï¸"
  else if code = 71 then some "â„ï¸"
  else if code = 80 then some "ğŸŒ§ï¸"
  else none

/-- The icon literal of the live success handler (`icon` of the success record), again
byte-for-byte from the source: the globe emoji in the file's mojibake
encoding. -/
def globeIcon : String := "ğŸŒ"

/-- Model of JS `Math.round` on finite numbers: round half toward
positive infinity. -/
def jsRound (q : ℚ) : ℤ := ⌊q + 1/2⌋

/-- The `temperatureF` computed signal:
`Math.round((weather.temperature * 9 / 5) + 32)`, `null` when no record
is published.  Being a function of the state, it is re-derived from the
current record and never stored. -/
def temperatureF (s : WeatherState) : Option ℤ :=
  match s.currentWeather with
  | none => none
  | some w => some (jsRound (w.temperature * 9 / 5 + 32))

/-- Helper for `replace` of whitespace runs by "-": `inRun` records whether the
previous character was whitespace (already replaced by a hyphen). -/
def collapseWsAux : Bool → List Char → List Char
  | _, [] => []
  | inRun, c :: cs =>
    if c.isWhitespace then
      if inRun then collapseWsAux true cs
      else '-' :: collapseWsAux true cs
    else c :: collapseWsAux false cs

/-- Model of `replace` of whitespace runs by "-": every maximal run of whitespace
characters becomes a single hyphen. -/
def collapseWs (l : List Char) : List Char := collapseWsAux false l

/-- JS `replace` of whitespace runs by "-" on a string. -/
def jsReplaceWsRuns (s : String) : String := String.mk (collapseWs s.data)

/-- The `weatherConditionClass` computed signal:
the lowercased condition with whitespace runs replaced by "-", or the empty string when
no record is published. -/
def weatherConditionClass (s : WeatherState) : String :=
  match s.currentWeather with
  | none => ""
  | some w => jsReplaceWsRuns (jsToLower w.condition)

/-- Modelled from the spec's words (for comparison with
`weatherConditionClass`): "lowercase condition label with internal
whitespace runs replaced by a single hyphen" — the whitespace-separated
words of the lowercased label joined by single hyphens. -/
def specSlug (c : String) : String :=
  String.intercalate "-"
    (((splitByChars Char.isWhitespace (jsToLower c).data).map
        (fun l => String.mk l)).filter (fun w => w != ""))

/-- Every condition label a published `WeatherRecord` can carry: the
values of `weatherCodeMap`, the mock table's labels, and the "Unknown"
default. -/
def conditionLabels : List String :=
  ["Clear", "Mainly Clear", "Partly Cloudy", "Cloudy", "Fog", "Rime Fog",
   "Light Drizzle", "Drizzle", "Rainy", "Heavy Rain", "Snow", "Rain Showers",
   "Sunny", "Unknown"]

/-- The payload of a 2xx provider response: arbitrary JSON, of which the
handler reads only `current_weather`; `none` models a body without that
object. -/
structure CurrentWeather where
  temperature : ℚ
  windspeed : ℚ
  weathercode : ℚ
  humidity : Option ℚ
deriving Repr, DecidableEq

/-- A provider response body.  `humidity` inside `CurrentWeather` is an
extra field the handler never reads. -/
structure ForecastResponse where
  current_weather : Option CurrentWeather
deriving Repr, DecidableEq

/-- How the single outbound HTTP request settles: a transport failure
(delivered to the `error` callback) or a parsed 2xx body (delivered to
the `next` callback). -/
inductive HttpOutcome where
  | failure
  | success (res : ForecastResponse)
deriving Repr, DecidableEq

/-- Observable outcome of one `searchWeather()` invocation run to
completion: the final component state, whether the outbound request was
issued, and whether the `next` callback threw an uncaught error.  (RxJS
does not route an exception thrown inside `next` to the `error` callback
of the same observer; it is reported as an unhandled error.) -/
structure SearchOutcome where
  state : WeatherState
  requested : Bool
  uncaught : Bool
deriving Repr, DecidableEq

/-- The live `WeatherComponent.searchWeather()`, with the settled HTTP
outcome passed explicitly.  Mirrors the source line by line: normalize
(`toLowerCase().trim()`), return on empty, return on unresolved
coordinates, set `isLoading`, then run the subscribe handler.  In the
`next` handler, when the body has no `current_weather`,
`current.temperature` throws a TypeError before `currentWeather.set`
and before `isLoading.set(false)`, so the state keeps `isLoading = true`
and the record is unchanged. -/
def searchWeather (dir : CityServiceState) (s : WeatherState) (http : HttpOutcome) :
    SearchOutcome :=
  let city := jsTrim (jsToLower s.searchCity)
  if city = "" then { state := s, requested := false, uncaught := false }
  else
    match CityService.getCoordinates dir city with
    | none => { state := s, requested := false, uncaught := false }
    | some _coords =>
      let s1 : WeatherState := { s with isLoading := true }
      match http with
      | HttpOutcome.failure =>
        { state := { s1 with isLoading := false }, requested := true, uncaught := false }
      | HttpOutcome.success res =>
        match res.current_weather with
        | none => { state := s1, requested := true, uncaught := true }
        | some current =>
          let record : WeatherData :=
            { city := s1.searchCity
              temperature := current.temperature
              condition := (weatherCodeMap current.weathercode).getD "Unknown"
              humidity := 0
              windSpeed := current.windspeed
              icon := globeIcon }
          { state := { s1 with currentWeather := some record, isLoading := false }
            requested := true
            uncaught := false }

/-- The mock `weatherDatabase` of the alternate (no-network) component
variant, keyed by normalized city name. -/
def weatherDatabase (key : String) : Option WeatherData :=
  if key = "london" then
    some { city := "London", temperature := 15, condition := "Cloudy",
           humidity := 75, windSpeed := 20, icon := "☁️" }
  else if key = "new york" then
    some { city := "New York", temperature := 22, condition := "Sunny",
           humidity := 60, windSpeed := 15, icon := "☀️" }
  else if key = "paris" then
    some { city := "Paris", temperature := 18, condition := "Partly Cloudy",
           humidity := 65, windSpeed := 12, icon := "⛅" }
  else if key = "tokyo" then
    some { city := "Tokyo", temperature := 25, condition := "Clear",
           humidity := 55, windSpeed := 10, icon := "🌤️" }
  else if key = "sydney" then
    some { city := "Sydney", temperature := 28, condition := "Sunny",
           humidity := 50, windSpeed := 18, icon := "☀️" }
  else if key = "seattle" then
    some { city := "Seattle", temperature := 12, condition := "Rainy",
           humidity := 85, windSpeed := 25, icon := "🌧️" }
  else none

/-- The alternate (mock) `searchWeather()`, run through the `setTimeout`
callback.  `Math.random()` values are passed explicitly as `r1 r2 r3`
(each in `[0, 1)`); `Math.floor(Math.random() * k) + b` becomes
`⌊r * k⌋ + b`. -/
def mockSearchWeather (s : WeatherState) (r1 r2 r3 : ℚ) : WeatherState :=
  let city := jsTrim (jsToLower s.searchCity)
  if city = "" then s
  else
    match weatherDatabase city with
    | some w => { s with currentWeather := some w, isLoading := false }
    | none =>
      { s with
        currentWeather := some
          { city := s.searchCity
            temperature := ((⌊r1 * 30⌋ : ℤ) : ℚ) + 10
            condition := "Unknown"
            humidity := ((⌊r2 * 40⌋ : ℤ) : ℚ) + 40
            windSpeed := ((⌊r3 * 20⌋ : ℤ) : ℚ) + 5
            icon := "🌍" }
        isLoading := false }

/-- The starting component state: empty search text, not loading, no
record. -/
def initWeatherState : WeatherState :=
  { searchCity := "", isLoading := false, currentWeather := none }

/-- The state just before the spec's end-to-end search: the user typed
"London". -/
def stateLondon : WeatherState :=
  { searchCity := "London", isLoading := false, currentWeather := none }

/-- The spec's end-to-end provider response:
`{current_weather:{temperature:15, windspeed:20, weathercode:3}}`. -/
def res15 : ForecastResponse :=
  { current_weather := some { temperature := 15, windspeed := 20, weathercode := 3,
                              humidity := none } }

/-- A previously published record, used to exhibit the frame property. -/
def priorRecord : WeatherData :=
  { city := "Paris", temperature := 18, condition := "Partly Cloudy",
    humidity := 65, windSpeed := 12, icon := "⛅" }

/-- A published record at temperature `t`, for the C6 samples. -/
def recordAt (t : ℚ) : WeatherData :=
  { city := "a", temperature := t, condition := "b",
    humidity := 0, windSpeed := 0, icon := "" }

/-- A state publishing `recordAt t`, for the C6 samples. -/
def stateAt (t : ℚ) : WeatherState :=
  { searchCity := "", isLoading := false, currentWeather := some (recordAt t) }

/-- A state with the published "Partly Cloudy" record, for the C7
witness. -/
def partlyCloudyState : WeatherState :=
  { searchCity := "x", isLoading := false, currentWeather := some priorRecord }

/-- The mock-miss search state: "Atlantis" is not a key of the mock
table. -/
def atlantisState : WeatherState :=
  { searchCity := "Atlantis", isLoading := false, currentWeather := none }

/-- A row parses to a record exactly when it has at least three
semicolon-fields (so that the `city` field of the destructuring is defined). -/
theorem parseLine_ok_of_three_fields (line : String)
    (h : 3 ≤ (jsSplit line ';').length) :
    ∃ r, parseLine line = Except.ok r := by
  have h2 : ∃ c, (jsSplit line ';')[2]? = some c := by
    rw [List.getElem?_eq_getElem (by omega)]
    exact ⟨_, rfl⟩
  obtain ⟨c, h2⟩ := h2
  rw [parseLine]
  simp only [h2]
  exact ⟨_, rfl⟩

/-- A non-empty row with fewer than three semicolon-fields makes the parse
callback throw. -/
theorem parseLine_error_of_missing_city (line : String)
    (h : (jsSplit line ';').length < 3) :
    parseLine line = Except.error () := by
  have h2 : (jsSplit line ';')[2]? = none := List.getElem?_eq_none (by omega)
  rw [parseLine]
  simp only [h2]

/-- Traversing rows that all have at least three fields succeeds and
yields one record per row. -/
theorem mapM_parseLine_ok (rows : List String)
    (h : ∀ row ∈ rows, 3 ≤ (jsSplit row ';').length) :
    ∃ recs, rows.mapM parseLine = Except.ok recs ∧ recs.length = rows.length := by
  induction rows with
  | nil => exact ⟨[], rfl, rfl⟩
  | cons a l ih =>
    obtain ⟨r, hr⟩ := parseLine_ok_of_three_fields a (h a (by simp))
    obtain ⟨recs, hrecs, hlen⟩ := ih (fun row hrow => h row (by simp [hrow]))
    refine ⟨r :: recs, ?_, by simp [hlen]⟩
    rw [List.mapM_cons, hr, hrecs]
    rfl

/-- A single short row anywhere in the dataset aborts the whole
traversal with the thrown TypeError. -/
theorem mapM_parseLine_error (rows : List String)
    (h : ∃ row ∈ rows, (jsSplit row ';').length < 3) :
    rows.mapM parseLine = Except.error () := by
  induction rows with
  | nil => simp at h
  | cons a l ih =>
    rw [List.mapM_cons]
    by_cases ha : (jsSplit a ';').length < 3
    · rw [parseLine_error_of_missing_city a ha]
      rfl
    · obtain ⟨r, hr⟩ := parseLine_ok_of_three_fields a (by omega)
      rw [hr]
      obtain ⟨row, hrow, hlen⟩ := h
      rcases List.mem_cons.mp hrow with rfl | hrow
      · omega
      · rw [ih ⟨row, hrow, hlen⟩]
        rfl

/-- Claim C1, counterexample: after loading the directory with the key
"london", a lookup of " london" — which differs from the stored key only
by surrounding whitespace and whose lowercased, trimmed form equals the
key — returns `null` from `getCoordinates`, while the spec's normalize
(lowercase, trim) resolution would return the record's coordinates. -/
theorem c1_counterexample :
    demoDir.cities.map CityRecord.city = ["london"]
    ∧ jsTrim (jsToLower " london") = "london"
    ∧ CityService.getCoordinates demoDir " london" = none
    ∧ specResolve demoDir " london" =
        some { lat := some (103/2), lon := some (-3/25) } := by decide

/-- Claim C1 (amended): `getCoordinates` normalizes the argument by
lowercasing only — it does not trim — so it agrees with the spec's
lowercase-and-trim resolution exactly on names whose lowercased form
carries no surrounding whitespace; a name that differs from a stored key
only by surrounding whitespace does not resolve (the trim happens in the
caller `searchWeather` instead). -/
theorem c1_getCoordinates_lowercase_only (dir : CityServiceState) (name : String)
    (h : jsTrim (jsToLower name) = jsToLower name) :
    CityService.getCoordinates dir name = specResolve dir name := by
  rw [CityService.getCoordinates, specResolve, h]

/-- Claim C1, witness: the amended theorem applied to the loaded demo
directory and the whitespace-free name "London". -/
theorem c1_witness :
    CityService.getCoordinates demoDir "London" = specResolve demoDir "London" :=
  c1_getCoordinates_lowercase_only demoDir "London" (by decide)

/-- Claim C3, counterexample: a row with two semicolon-fields makes `parse`
throw (and the later well-formed "paris" row is lost with it), and a row
with five semicolon-fields does contribute a record (with a NaN altitude) —
contradicting both the no-raise and the no-record parts of the claim. -/
theorem c3_counterexample :
    parse "id;country;city;lat;lon;altitude\n1;UK\n2;FR;paris;48.8;2.3;35"
      = Except.error ()
    ∧ parse "header\n1;UK;lon;1;2" =
        Except.ok [{ id := "1", country := "UK", city := "lon",
                     lat := some 1, lon := some 2, altitude := none }] := by decide

/-- Claim C3 (amended): rows are skipped only when empty after trimming;
a non-empty row parses to a record whenever it has at least three
semicolon-fields (missing numeric fields become NaN and surplus fields are
ignored), so a dataset all of whose non-empty body rows have at least
three fields parses to exactly one record per row, while any non-empty
body row with fewer than three fields makes `parse` throw, aborting the
whole load. -/
theorem c3_short_rows (data : String) :
    ((∀ row ∈ bodyRows data, 3 ≤ (jsSplit row ';').length) →
      ∃ recs, parse data = Except.ok recs ∧ recs.length = (bodyRows data).length)
    ∧ ((∃ row ∈ bodyRows data, (jsSplit row ';').length < 3) →
      parse data = Except.error ()) :=
  ⟨fun h => mapM_parseLine_ok (bodyRows data) h,
   fun h => mapM_parseLine_error (bodyRows data) h⟩

/-- Claim C3, witness: the amended theorem applied to the demo dataset,
whose single body row has six fields. -/
theorem c3_witness :
    ∃ recs, parse demoDataset = Except.ok recs
      ∧ recs.length = (bodyRows demoDataset).length :=
  (c3_short_rows demoDataset).1 (by decide)

/-- Claim C8: `load()` is idempotent — starting unloaded with no fetch
issued, if the first `load` completes (the `loaded` flag is set), a
second `load` returns immediately without changing anything, and the
dataset has been fetched and parsed exactly once in total. -/
theorem c8_load_idempotent (text : String) (s : CityServiceState)
    (h0 : s.loaded = false) (h1 : s.fetchCount = 0)
    (h2 : (CityService.load text s).loaded = true) :
    CityService.load text (CityService.load text s) = CityService.load text s
    ∧ (CityService.load text (CityService.load text s)).fetchCount = 1 := by
  cases hp : parse text with
  | error e =>
    exfalso
    rw [CityService.load, h0] at h2
    simp [hp] at h2
  | ok recs =>
    have hload : CityService.load text s =
        { cities := recs, loaded := true, fetchCount := s.fetchCount + 1 } := by
      rw [CityService.load, h0]
      simp [hp]
    have hsecond : CityService.load text (CityService.load text s) =
        CityService.load text s := by
      rw [hload, CityService.load]
      simp
    exact ⟨hsecond, by rw [hsecond, hload]; simp [h1]⟩

/-- Claim C8, witness: the theorem applied to the demo dataset from the
initial service state. -/
theorem c8_witness :
    CityService.load demoDataset (CityService.load demoDataset CityService.initState)
      = CityService.load demoDataset CityService.initState
    ∧ (CityService.load demoDataset
        (CityService.load demoDataset CityService.initState)).fetchCount = 1 :=
  c8_load_idempotent demoDataset CityService.initState rfl rfl (by decide)

/-- Claim C2, counterexample: searching "London" against the loaded demo
directory with a 2xx response whose body lacks `current_weather` issues
the request, but the `next` handler throws on `current.temperature` and
the busy indicator is left `true` — the claim's "every exit path clears
the busy indicator" fails for the malformed-payload path. -/
theorem c2_counterexample :
    (searchWeather demoDir stateLondon
        (HttpOutcome.success { current_weather := none })).requested = true
    ∧ (searchWeather demoDir stateLondon
        (HttpOutcome.success { current_weather := none })).state.isLoading = true
    ∧ (searchWeather demoDir stateLondon
        (HttpOutcome.success { current_weather := none })).uncaught = true := by decide

/-- Claim C2 (amended): whenever `searchWeather` issues the outbound
request, the busy indicator ends `false` on transport failure and on any
2xx response that carries a `current_weather` object; but a 2xx response
without `current_weather` makes the `next` handler throw an uncaught
error, leaving the busy indicator `true`. -/
theorem c2_busy_indicator (dir : CityServiceState) (s : WeatherState)
    (http : HttpOutcome)
    (hreq : (searchWeather dir s http).requested = true) :
    (http = HttpOutcome.failure →
      (searchWeather dir s http).state.isLoading = false)
    ∧ (∀ res cur, http = HttpOutcome.success res → res.current_weather = some cur →
      (searchWeather dir s http).state.isLoading = false)
    ∧ (∀ res, http = HttpOutcome.success res → res.current_weather = none →
      (searchWeather dir s http).state.isLoading = true
        ∧ (searchWeather dir s http).uncaught = true) := by
  by_cases hc : jsTrim (jsToLower s.searchCity) = ""
  · rw [searchWeather] at hreq
    simp [hc] at hreq
  · rcases hco : CityService.getCoordinates dir (jsTrim (jsToLower s.searchCity))
      with _ | co
    · rw [searchWeather] at hreq
      simp [hc, hco] at hreq
    · refine ⟨?_, ?_, ?_⟩
      · rintro rfl
        rw [searchWeather]
        simp [hc, hco]
      · rintro res cur rfl hcur
        rw [searchWeather]
        simp [hc, hco, hcur]
      · rintro res rfl hcur
        rw [searchWeather]
        simp [hc, hco, hcur]

/-- Claim C2, witness: the amended theorem applied to the demo search on
the transport-failure path. -/
theorem c2_witness :
    (searchWeather demoDir stateLondon HttpOutcome.failure).state.isLoading = false :=
  (c2_busy_indicator demoDir stateLondon HttpOutcome.failure (by decide)).1 rfl

/-- Claim C4: on a successful provider response the published record uses
the originally typed search text as city, the provider's temperature and
wind speed verbatim, the `weatherCodeMap` label with default "Unknown",
humidity 0 and the fixed icon; in particular the spec's end-to-end
scenario — dataset row `1;UK;london;51.5;-0.12;35`, response
`{current_weather:{temperature:15, windspeed:20, weathercode:3}}`,
search("London") — publishes {city "London", temperature 15, condition
"Cloudy", windSpeed 20, humidity 0} with Fahrenheit 59 and slug
"cloudy", and an unmapped weather code yields condition "Unknown". -/
theorem c4_success_record :
    (∀ dir s res cur, res.current_weather = some cur →
      (searchWeather dir s (HttpOutcome.success res)).requested = true →
      (searchWeather dir s (HttpOutcome.success res)).state.currentWeather =
        some { city := s.searchCity, temperature := cur.temperature,
               condition := (weatherCodeMap cur.weathercode).getD "Unknown",
               humidity := 0, windSpeed := cur.windspeed, icon := globeIcon })
    ∧ (searchWeather demoDir stateLondon (HttpOutcome.success res15)).state.currentWeather =
        some { city := "London", temperature := 15, condition := "Cloudy",
               humidity := 0, windSpeed := 20, icon := globeIcon }
    ∧ temperatureF (searchWeather demoDir stateLondon (HttpOutcome.success res15)).state
        = some 59
    ∧ weatherConditionClass (searchWeather demoDir stateLondon
        (HttpOutcome.success res15)).state = "cloudy"
    ∧ (searchWeather demoDir stateLondon (HttpOutcome.success
          { current_weather := some { temperature := 15, windspeed := 20,
                                      weathercode := 99, humidity := none } })
        ).state.currentWeather =
        some { city := "London", temperature := 15, condition := "Unknown",
               humidity := 0, windSpeed := 20, icon := globeIcon } := by
  refine ⟨?_, by decide, by decide, by decide, by decide⟩
  intro dir s res cur hcur hreq
  by_cases hc : jsTrim (jsToLower s.searchCity) = ""
  · rw [searchWeather] at hreq
    simp [hc] at hreq
  · rcases hco : CityService.getCoordinates dir (jsTrim (jsToLower s.searchCity))
      with _ | co
    · rw [searchWeather] at hreq
      simp [hc, hco] at hreq
    · rw [searchWeather]
      simp [hc, hco, hcur]

/-- Claim C4, witness: the general mapping conjunct applied to the demo
search and the spec's response. -/
theorem c4_witness :
    (searchWeather demoDir stateLondon (HttpOutcome.success res15)).state.currentWeather =
      some { city := stateLondon.searchCity, temperature := (15 : ℚ),
             condition := (weatherCodeMap 3).getD "Unknown",
             humidity := 0, windSpeed := 20, icon := globeIcon } :=
  c4_success_record.1 demoDir stateLondon res15
    { temperature := 15, windspeed := 20, weathercode := 3, humidity := none }
    rfl (by decide)

/-- Claim C5: when the provider call fails in transport, the final state
is exactly the prior state with the busy indicator cleared — the
previously published record (if any) and the search text are untouched,
and no record is published. -/
theorem c5_failure_frame (dir : CityServiceState) (s : WeatherState)
    (h : (searchWeather dir s HttpOutcome.failure).requested = true) :
    (searchWeather dir s HttpOutcome.failure).state = { s with isLoading := false } := by
  by_cases hc : jsTrim (jsToLower s.searchCity) = ""
  · rw [searchWeather] at h
    simp [hc] at h
  · rcases hco : CityService.getCoordinates dir (jsTrim (jsToLower s.searchCity))
      with _ | co
    · rw [searchWeather] at h
      simp [hc, hco] at h
    · rw [searchWeather]
      simp [hc, hco]

/-- Claim C5, witness: a failing search for "London" leaves the
previously published Paris record in place and only clears the busy
indicator. -/
theorem c5_witness :
    (searchWeather demoDir
        { searchCity := "London", isLoading := false, currentWeather := some priorRecord }
        HttpOutcome.failure).state =
      { searchCity := "London", isLoading := false, currentWeather := some priorRecord } :=
  c5_failure_frame demoDir
    { searchCity := "London", isLoading := false, currentWeather := some priorRecord }
    (by decide)

/-- Claim C6: the derived Fahrenheit value is absent exactly when no
record is published, is `Math.round(t * 9/5 + 32)` of the published
Celsius temperature otherwise, and on the spec's sample temperatures
gives 15 ↦ 59, 0 ↦ 32 and 100 ↦ 212; being a function of the state it is
re-derived from the current record, never stored. -/
theorem c6_fahrenheit :
    (∀ s : WeatherState, s.currentWeather = none → temperatureF s = none)
    ∧ (∀ (s : WeatherState) (w : WeatherData), s.currentWeather = some w →
        temperatureF s = some (jsRound (w.temperature * 9 / 5 + 32)))
    ∧ temperatureF (stateAt 15) = some 59
    ∧ temperatureF (stateAt 0) = some 32
    ∧ temperatureF (stateAt 100) = some 212 := by
  refine ⟨?_, ?_, by decide, by decide, by decide⟩
  · intro s h
    rw [temperatureF, h]
  · intro s w h
    rw [temperatureF, h]

/-- Claim C6, witness: the general conjunct applied to a concrete
published record at 15 °C. -/
theorem c6_witness :
    temperatureF (stateAt 15) = some (jsRound ((recordAt 15).temperature * 9 / 5 + 32)) :=
  c6_fahrenheit.2.1 (stateAt 15) (recordAt 15) rfl

/-- Claim C7: the derived CSS slug is the empty string when no record is
published; for every condition label a record can carry it equals the
spec's "lowercase with internal whitespace runs replaced by a single
hyphen"; and on the spec's samples "Partly Cloudy" ↦ "partly-cloudy",
"Clear" ↦ "clear", and multiple internal spaces collapse to one
hyphen. -/
theorem c7_condition_slug :
    (∀ s : WeatherState, s.currentWeather = none → weatherConditionClass s = "")
    ∧ (∀ (s : WeatherState) (w : WeatherData), s.currentWeather = some w →
        w.condition ∈ conditionLabels →
        weatherConditionClass s = specSlug w.condition)
    ∧ jsReplaceWsRuns (jsToLower "Partly Cloudy") = "partly-cloudy"
    ∧ jsReplaceWsRuns (jsToLower "Clear") = "clear"
    ∧ jsReplaceWsRuns (jsToLower "Partly   Cloudy") = "partly-cloudy" := by
  refine ⟨?_, ?_, by decide, by decide, by decide⟩
  · intro s h
    rw [weatherConditionClass, h]
  · intro s w hs hmem
    have hred : weatherConditionClass s = jsReplaceWsRuns (jsToLower w.condition) := by
      rw [weatherConditionClass, hs]
    rw [hred]
    simp only [conditionLabels, List.mem_cons, List.not_mem_nil, or_false] at hmem
    rcases hmem with h|h|h|h|h|h|h|h|h|h|h|h|h|h <;> rw [h] <;> decide

/-- Claim C7, witness: the label conjunct applied to the published
"Partly Cloudy" record. -/
theorem c7_witness :
    weatherConditionClass partlyCloudyState = specSlug priorRecord.condition :=
  c7_condition_slug.2.1 partlyCloudyState priorRecord rfl (by decide)

/-- Floor of a `[0,1)` random scaled by a positive factor lies in
`[0, k)`. -/
theorem floor_scale_nonneg_lt (r k : ℚ) (h0 : 0 ≤ r) (h1 : r < 1) (hk : 0 < k) :
    (0 : ℚ) ≤ ((⌊r * k⌋ : ℤ) : ℚ) ∧ ((⌊r * k⌋ : ℤ) : ℚ) < k := by
  constructor
  · exact_mod_cast Int.floor_nonneg.mpr (mul_nonneg h0 hk.le)
  · calc ((⌊r * k⌋ : ℤ) : ℚ) ≤ r * k := Int.floor_le _
      _ < k := by nlinarith

/-- Claim C9: in the mock variant, a search for a normalized city name
missing from `weatherDatabase` publishes a synthesized record with
condition "Unknown", temperature in [10, 40], humidity in [40, 80] and
wind speed in [5, 25]. -/
theorem c9_mock_miss_bounds (s : WeatherState) (r1 r2 r3 : ℚ)
    (h10 : 0 ≤ r1) (h11 : r1 < 1) (h20 : 0 ≤ r2) (h21 : r2 < 1)
    (h30 : 0 ≤ r3) (h31 : r3 < 1)
    (hne : ¬ jsTrim (jsToLower s.searchCity) = "")
    (hmiss : weatherDatabase (jsTrim (jsToLower s.searchCity)) = none) :
    ∃ w, (mockSearchWeather s r1 r2 r3).currentWeather = some w
      ∧ w.condition = "Unknown"
      ∧ 10 ≤ w.temperature ∧ w.temperature ≤ 40
      ∧ 40 ≤ w.humidity ∧ w.humidity ≤ 80
      ∧ 5 ≤ w.windSpeed ∧ w.windSpeed ≤ 25 := by
  have hw : (mockSearchWeather s r1 r2 r3).currentWeather = some
      { city := s.searchCity
        temperature := ((⌊r1 * 30⌋ : ℤ) : ℚ) + 10
        condition := "Unknown"
        humidity := ((⌊r2 * 40⌋ : ℤ) : ℚ) + 40
        windSpeed := ((⌊r3 * 20⌋ : ℤ) : ℚ) + 5
        icon := "🌍" } := by
    rw [mockSearchWeather]
    simp [hne, hmiss]
  obtain ⟨hl1, hu1⟩ := floor_scale_nonneg_lt r1 30 h10 h11 (by norm_num)
  obtain ⟨hl2, hu2⟩ := floor_scale_nonneg_lt r2 40 h20 h21 (by norm_num)
  obtain ⟨hl3, hu3⟩ := floor_scale_nonneg_lt r3 20 h30 h31 (by norm_num)
  refine ⟨_, hw, rfl, ?_, ?_, ?_, ?_, ?_, ?_⟩ <;> dsimp only <;> linarith

/-- Claim C9, witness: the theorem applied to a search for "Atlantis"
with all three random draws equal to 1/2. -/
theorem c9_witness :
    ∃ w, (mockSearchWeather atlantisState (1/2) (1/2) (1/2)).currentWeather = some w
      ∧ w.condition = "Unknown"
      ∧ 10 ≤ w.temperature ∧ w.temperature ≤ 40
      ∧ 40 ≤ w.humidity ∧ w.humidity ≤ 80
      ∧ 5 ≤ w.windSpeed ∧ w.windSpeed ≤ 25 :=
  c9_mock_miss_bounds atlantisState (1/2) (1/2) (1/2)
    (by norm_num) (by norm_num) (by norm_num) (by norm_num) (by norm_num) (by norm_num)
    (by decide) (by decide)

/-- No value of `weatherIconMap` is the globe icon the live success
handler hard-codes — the icon map plays no part in the published
record. -/
theorem weatherIconMap_ne_globe (c : ℚ) : weatherIconMap c ≠ some globeIcon := by
  rw [weatherIconMap]
  split_ifs <;> simp [globeIcon]

/-- Claim C10: every record the live `searchWeather` publishes carries
the fixed globe icon (as the mojibake literal of the source) and
humidity 0, whatever the response's weather code or humidity field; and
that icon is not a value of `weatherIconMap`, which the handler never
consults. -/
theorem c10_live_icon_humidity (dir : CityServiceState) (s : WeatherState)
    (res : ForecastResponse) (cur : CurrentWeather)
    (hcur : res.current_weather = some cur)
    (hreq : (searchWeather dir s (HttpOutcome.success res)).requested = true) :
    ∃ w, (searchWeather dir s (HttpOutcome.success res)).state.currentWeather = some w
      ∧ w.icon = globeIcon ∧ w.humidity = 0
      ∧ ∀ c : ℚ, weatherIconMap c ≠ some w.icon := by
  by_cases hc : jsTrim (jsToLower s.searchCity) = ""
  · rw [searchWeather] at hreq
    simp [hc] at hreq
  · rcases hco : CityService.getCoordinates dir (jsTrim (jsToLower s.searchCity))
      with _ | co
    · rw [searchWeather] at hreq
      simp [hc, hco] at hreq
    · have hw : (searchWeather dir s (HttpOutcome.success res)).state.currentWeather =
          some
            { city := s.searchCity
              temperature := cur.temperature
              condition := (weatherCodeMap cur.weathercode).getD "Unknown"
              humidity := 0
              windSpeed := cur.windspeed
              icon := globeIcon } := by
        rw [searchWeather]
        simp [hc, hco, hcur]
      exact ⟨_, hw, rfl, rfl, fun c => weatherIconMap_ne_globe c⟩

/-- Claim C10, witness: the theorem applied to the demo search with a
response carrying weather code 3 and an explicit humidity field the
handler ignores. -/
theorem c10_witness :
    ∃ w, (searchWeather demoDir stateLondon (HttpOutcome.success
        { current_weather := some
            { temperature := 15, windspeed := 20, weathercode := 3,
              humidity := some 55 } })).state.currentWeather = some w
      ∧ w.icon = globeIcon ∧ w.humidity = 0
      ∧ ∀ c : ℚ, weatherIconMap c ≠ some w.icon :=
  c10_live_icon_humidity demoDir stateLondon
    { current_weather := some
        { temperature := 15, windspeed := 20, weathercode := 3, humidity := some 55 } }
    { temperature := 15, windspeed := 20, weathercode := 3, humidity := some 55 }
    rfl (by decide)

end WeatherApp
